import Mathlib

/-!
Shallow embedding of `src/scheduler.ts` (OAK blockchain JS SDK scheduler).

JavaScript numbers are modelled as `Int` where the code only performs
integer-valued arithmetic (timestamps, `Date.now()`, amounts), and as `Rat`
where the code performs true division (`convertToSeconds`).  `Date.now()` is
non-negative, so JavaScript `%` on it agrees with `Int.emod`; for the
`timestamp % 3600 !== 0` test, JavaScript remainder and `Int.emod` agree on
being zero, which is all the code inspects.  Thrown `Error`s are modelled as
`Except` errors.  External collaborators (chain connection, extrinsic
assembly, signing, the metadata registry, the transaction-status stream) are
modelled as parameters and as recorded effects.
-/

/-- Modelled from the spec: `MS_IN_SEC` from the missing `constants.ts`
(milliseconds per second). -/
def MS_IN_SEC : Int := 1000

/-- Modelled from the spec: `SEC_IN_MIN` from the missing `constants.ts`
(seconds per minute). -/
def SEC_IN_MIN : Int := 60

/-- Modelled from the spec: `MIN_IN_HOUR` from the missing `constants.ts`
(minutes per hour). -/
def MIN_IN_HOUR : Int := 60

/-- Modelled from the spec: `RECURRING_TASK_LIMIT` from the missing
`constants.ts`; the spec gives the recurring-task limit as 24. -/
def RECURRING_TASK_LIMIT : Nat := 24

/-- The distinct `throw new Error(...)` sites of the validators, one
constructor per distinct error message. -/
inductive ValidationError
  | tooManyTasks
  | timestampInPast
  | notHourAligned
  | tooFarInFuture
  | amountTooLow
  | selfTransferNotAllowed
  deriving DecidableEq, Repr

/-- The `nextAvailableHour` computation of `validateTimestamps`
(`scheduler.ts` lines 120-122):
`(currentTime - (currentTime % (SEC_IN_MIN * MIN_IN_HOUR * MS_IN_SEC)) + SEC_IN_MIN * MIN_IN_HOUR * MS_IN_SEC) / 1000`,
with `currentTime = Date.now()` in milliseconds.  The numerator is an exact
multiple of 1000, so JavaScript real division agrees with integer division. -/
def nextAvailableHour (currentTime : Int) : Int :=
  (currentTime - currentTime % (SEC_IN_MIN * MIN_IN_HOUR * MS_IN_SEC)
    + SEC_IN_MIN * MIN_IN_HOUR * MS_IN_SEC) / 1000

/-- The body of the `_.forEach` loop of `validateTimestamps`
(`scheduler.ts` lines 123-127): the three per-timestamp checks in source
order (past, hour alignment, horizon), first failing check throws. -/
def checkTimestamp (schedulingTimeLimit currentTime timestamp : Int) :
    Except ValidationError Unit :=
  if timestamp < nextAvailableHour currentTime then
    .error .timestampInPast
  else if timestamp % (SEC_IN_MIN * MIN_IN_HOUR) ≠ 0 then
    .error .notHourAligned
  else if timestamp > currentTime + schedulingTimeLimit then
    .error .tooFarInFuture
  else
    .ok ()

/-- The `_.forEach` traversal: timestamps are checked in input order and the
first thrown error aborts the traversal. -/
def checkTimestampList (schedulingTimeLimit currentTime : Int) :
    List Int → Except ValidationError Unit
  | [] => .ok ()
  | t :: ts =>
    match checkTimestamp schedulingTimeLimit currentTime t with
    | .error e => .error e
    | .ok _ => checkTimestampList schedulingTimeLimit currentTime ts

/-- `Scheduler.validateTimestamps` (`scheduler.ts` lines 117-128).
`schedulingTimeLimit` is the chain profile's `OakChainSchedulingLimit`
entry (milliseconds) and `currentTime` is `Date.now()` (milliseconds),
both passed explicitly in the embedding. -/
def validateTimestamps (schedulingTimeLimit currentTime : Int)
    (timestamps : List Int) : Except ValidationError Unit :=
  if timestamps.length > RECURRING_TASK_LIMIT then
    .error .tooManyTasks
  else
    checkTimestampList schedulingTimeLimit currentTime timestamps

/-- `Scheduler.validateTransferParams` (`scheduler.ts` lines 136-139).
`lowestTransferrableAmount` is `LOWEST_TRANSFERRABLE_AMOUNT` from the
missing `constants.ts`, whose value the spec does not fix; it is passed
explicitly. -/
def validateTransferParams (lowestTransferrableAmount amount : Int)
    (sendingAddress receivingAddress : String) : Except ValidationError Unit :=
  if amount < lowestTransferrableAmount then
    .error .amountTooLow
  else if sendingAddress = receivingAddress then
    .error .selfTransferNotAllowed
  else
    .ok ()

/-- `Scheduler.convertToSeconds` (`scheduler.ts` lines 57-63): values above
the threshold `100000000000` are treated as milliseconds and divided by
`MS_IN_SEC`; JavaScript `/` is real division, modelled exactly on `Rat`. -/
def convertToSeconds (startTimestamps : List Rat) : List Rat :=
  startTimestamps.map fun startTimestamp =>
    if startTimestamp > 100000000000 then startTimestamp / (MS_IN_SEC : Rat)
    else startTimestamp

/-- The externally visible side effects a build operation can perform, in
the order the source performs them: `getAPIClient()` (chain connection),
`polkadotApi.tx[...][...]` (extrinsic assembly), `signAsync` (signing). -/
inductive ChainEffect
  | connectChain
  | assembleExtrinsic
  | signExtrinsic
  deriving DecidableEq, Repr

/-- The argument tuple the source passes to
`automationTime.scheduleNotifyTask` (`scheduler.ts` line 189). -/
structure NotifyTaskCall where
  providedID : Int
  executionTimes : List Rat
  message : String
  deriving DecidableEq, Repr

/-- The argument tuple the source passes to
`automationTime.scheduleNativeTransferTask` (`scheduler.ts` lines 221-226). -/
structure TransferTaskCall where
  providedID : String
  executionTimes : List Rat
  receivingAddress : String
  amount : Int
  deriving DecidableEq, Repr

/-- `Scheduler.buildScheduleNotifyExtrinsic` (`scheduler.ts` lines 179-195):
validate, convert to seconds, then connect / assemble / sign.  The returned
effect list records which external interactions were reached; a thrown
validation error aborts before any of them. -/
def buildScheduleNotifyExtrinsic (schedulingTimeLimit currentTime : Int)
    (providedID : Int) (timestamps : List Int) (message : String) :
    List ChainEffect × Except ValidationError NotifyTaskCall :=
  match validateTimestamps schedulingTimeLimit currentTime timestamps with
  | .error e => ([], .error e)
  | .ok _ =>
    let secondTimestamps := convertToSeconds (timestamps.map fun t => (t : Rat))
    ([.connectChain, .assembleExtrinsic, .signExtrinsic],
      .ok { providedID := providedID, executionTimes := secondTimestamps,
            message := message })

/-- `Scheduler.buildScheduleNativeTransferExtrinsic` (`scheduler.ts` lines
209-232): validate timestamps, then transfer params, convert to seconds,
then connect / assemble / sign.  `address` is the sending address, compared
against `receivingAddress` by `validateTransferParams`. -/
def buildScheduleNativeTransferExtrinsic
    (schedulingTimeLimit currentTime lowestTransferrableAmount : Int)
    (address providedID : String) (timestamps : List Int)
    (receivingAddress : String) (amount : Int) :
    List ChainEffect × Except ValidationError TransferTaskCall :=
  match validateTimestamps schedulingTimeLimit currentTime timestamps with
  | .error e => ([], .error e)
  | .ok _ =>
    match validateTransferParams lowestTransferrableAmount amount address
        receivingAddress with
    | .error e => ([], .error e)
    | .ok _ =>
      let secondTimestamps := convertToSeconds (timestamps.map fun t => (t : Rat))
      ([.connectChain, .assembleExtrinsic, .signExtrinsic],
        .ok { providedID := providedID, executionTimes := secondTimestamps,
              receivingAddress := receivingAddress, amount := amount })

/-- The `result.status` fields `defaultErrorHandler` reads:
`status.type` (logged) and `status.isFinalized`. -/
structure TxStatusInfo where
  type : String
  isFinalized : Bool
  deriving DecidableEq, Repr

/-- `result.dispatchError` when present: either a module-scoped error
(`isModule`, carrying the opaque `asModule` data, here its index pair) or
any other dispatch error, carried as its `toString()` rendering. -/
inductive DispatchError
  | moduleErr (moduleIndex errorIndex : Nat)
  | other (raw : String)
  deriving DecidableEq, Repr

/-- The part of polkadot.js `ISubmittableResult` the scheduler reads. -/
structure SubmittableResult where
  status : TxStatusInfo
  dispatchError : Option DispatchError
  deriving DecidableEq, Repr

/-- The decoded metadata-registry error returned by
`api.registry.findMetaError` (`scheduler.ts` line 71): `docs`, `name` and
`section` (the latter renamed, `section` being a Lean keyword). -/
structure MetaError where
  docs : List String
  name : String
  sectionName : String
  deriving DecidableEq, Repr

/-- One `console.log` line of `defaultErrorHandler` / `sendExtrinsic`,
keeping the decision structure and the data each line carries rather than
the literal string formatting. -/
inductive LogEntry
  | txStatus (statusType : String)
  | finalizedModuleError (metaError : MetaError)
  | finalizedOtherError (raw : String)
  deriving DecidableEq, Repr

/-- `Scheduler.defaultErrorHandler` (`scheduler.ts` lines 65-82).
`findMetaError` models the external metadata registry (a total collaborator
in this embedding).  Every status event is logged; on a finalized result
with a dispatch error, either the decoded module error or the stringified
opaque error is additionally logged; nothing is thrown or returned. -/
def defaultErrorHandler (findMetaError : Nat → Nat → MetaError)
    (result : SubmittableResult) : List LogEntry :=
  let statusLog := LogEntry.txStatus result.status.type
  if result.status.isFinalized then
    match result.dispatchError with
    | some (.moduleErr moduleIndex errorIndex) =>
      [statusLog, .finalizedModuleError (findMetaError moduleIndex errorIndex)]
    | some (.other raw) =>
      [statusLog, .finalizedOtherError raw]
    | none => [statusLog]
  else
    [statusLog]

/-- Number of further status-event deliveries awaited between the resolution
of the awaited `txObject.send(...)` and the `unsub()` call: in the source
(`scheduler.ts` lines 154-163) `unsub()` is the very next statement after
the awaited send, with no intervening await, so zero. -/
def sendUnsubDelay : Nat := 0

/-- What `sendExtrinsic` produces: the status events its callback ever
observes, and the string it returns. -/
structure SendOutcome where
  observed : List SubmittableResult
  txHash : String
  deriving DecidableEq, Repr

/-- `Scheduler.sendExtrinsic` (`scheduler.ts` lines 147-165).  `events` is
the stream of status events the chain would deliver for this submission, in
delivery order; the subscription forwards the current event available at
registration plus one further event per awaited delivery, so with the
immediate `unsub()` the callback observes a prefix of length at most
`sendUnsubDelay + 1`.  The returned string is `txObject.hash.toString()`,
where `txObject` is built from `extrinsicHex` alone; `hashOf` models that
external hash function. -/
def sendExtrinsic (hashOf : String → String) (extrinsicHex : String)
    (events : List SubmittableResult) : SendOutcome :=
  { observed := events.take (sendUnsubDelay + 1)
  , txHash := hashOf extrinsicHex }

/-- Modelled from the spec: the corrected `validateTimestamps` contract of
§4.1 — "implementers must validate in a single normalized unit, seconds,
applied consistently to both the alignment and range checks".  `currentTime`
(`Date.now()`) and the chain profile's `schedulingTimeLimit` are given in
milliseconds and are normalized to seconds for both range bounds, with the
alignment check unchanged (already in seconds). -/
def checkTimestampSpec (schedulingTimeLimit currentTime timestamp : Int) :
    Except ValidationError Unit :=
  if timestamp < nextAvailableHour currentTime then
    .error .timestampInPast
  else if timestamp % (SEC_IN_MIN * MIN_IN_HOUR) ≠ 0 then
    .error .notHourAligned
  else if timestamp > currentTime / MS_IN_SEC + schedulingTimeLimit / MS_IN_SEC then
    .error .tooFarInFuture
  else
    .ok ()

/-- Modelled from the spec: the per-list traversal of the corrected
contract, first violation in input order, as in the reference. -/
def checkTimestampSpecList (schedulingTimeLimit currentTime : Int) :
    List Int → Except ValidationError Unit
  | [] => .ok ()
  | t :: ts =>
    match checkTimestampSpec schedulingTimeLimit currentTime t with
    | .error e => .error e
    | .ok _ => checkTimestampSpecList schedulingTimeLimit currentTime ts

/-- Modelled from the spec: the corrected `validateTimestamps` with uniform
seconds for all per-timestamp checks. -/
def validateTimestampsSpec (schedulingTimeLimit currentTime : Int)
    (timestamps : List Int) : Except ValidationError Unit :=
  if timestamps.length > RECURRING_TASK_LIMIT then
    .error .tooManyTasks
  else
    checkTimestampSpecList schedulingTimeLimit currentTime timestamps

theorem hourSeconds : SEC_IN_MIN * MIN_IN_HOUR = (3600 : Int) := by decide

theorem hourMillis : SEC_IN_MIN * MIN_IN_HOUR * MS_IN_SEC = (3600000 : Int) := by
  decide

theorem nextAvailableHour_eq (currentTime : Int) :
    nextAvailableHour currentTime = 3600 * (currentTime / 3600000 + 1) := by
  have hmod : currentTime - currentTime % 3600000 + 3600000 =
      1000 * (3600 * (currentTime / 3600000 + 1)) := by
    have h := Int.ediv_add_emod currentTime 3600000
    ring_nf
    ring_nf at h
    linarith
  simp only [nextAvailableHour, hourMillis]
  rw [hmod, Int.mul_ediv_cancel_left _ (by norm_num : (1000 : Int) ≠ 0)]

theorem lt_mul_nextAvailableHour (currentTime : Int) :
    currentTime < 1000 * nextAvailableHour currentTime := by
  rw [nextAvailableHour_eq]
  have h1 := Int.emod_lt_of_pos currentTime (by norm_num : (0 : Int) < 3600000)
  have h2 := Int.ediv_add_emod currentTime 3600000
  linarith

theorem nextAvailableHour_least (currentTime s : Int) (hdvd : 3600 ∣ s)
    (hlt : currentTime < 1000 * s) : nextAvailableHour currentTime ≤ s := by
  obtain ⟨k, rfl⟩ := hdvd
  rw [nextAvailableHour_eq]
  have hq : currentTime / 3600000 < k := by
    rw [Int.ediv_lt_iff_lt_mul (by norm_num : (0 : Int) < 3600000)]
    linarith
  linarith

theorem checkTimestampList_ok_iff (L now : Int) (ts : List Int) :
    checkTimestampList L now ts = .ok () ↔
      ∀ t ∈ ts, checkTimestamp L now t = .ok () := by
  induction ts with
  | nil => simp [checkTimestampList]
  | cons t ts ih =>
    constructor
    · intro h u hu
      rcases List.mem_cons.mp hu with rfl | hu'
      · cases hck : checkTimestamp L now u with
        | ok v => cases v; rfl
        | error e => rw [checkTimestampList, hck] at h; cases h
      · cases hck : checkTimestamp L now t with
        | ok v =>
          rw [checkTimestampList, hck] at h
          exact ih.mp h u hu'
        | error e => rw [checkTimestampList, hck] at h; cases h
    · intro h
      have ht := h t (by simp)
      rw [checkTimestampList, ht]
      exact ih.mpr fun u hu => h u (by simp [hu])

theorem checkTimestampList_first_error (L now : Int) (pre : List Int) (t : Int)
    (post : List Int) (e : ValidationError)
    (hpre : ∀ u ∈ pre, checkTimestamp L now u = .ok ())
    (ht : checkTimestamp L now t = .error e) :
    checkTimestampList L now (pre ++ t :: post) = .error e := by
  induction pre with
  | nil => rw [List.nil_append, checkTimestampList, ht]
  | cons u pre ih =>
    have hu : checkTimestamp L now u = .ok () := hpre u (by simp)
    rw [List.cons_append, checkTimestampList, hu]
    exact ih fun v hv => hpre v (by simp [hv])

theorem checkTimestampList_error_of_not_all_ok (L now : Int) (ts : List Int)
    (h : ¬ ∀ t ∈ ts, checkTimestamp L now t = .ok ()) :
    ∃ e, checkTimestampList L now ts = .error e := by
  cases hres : checkTimestampList L now ts with
  | ok u =>
    cases u
    exact absurd ((checkTimestampList_ok_iff L now ts).mp hres) h
  | error e => exact ⟨e, rfl⟩

theorem checkTimestamp_misaligned_ne_ok (L now t : Int) (h : t % 3600 ≠ 0) :
    checkTimestamp L now t ≠ .ok () := by
  have h36 : t % (SEC_IN_MIN * MIN_IN_HOUR) ≠ 0 := by rw [hourSeconds]; exact h
  by_cases h1 : t < nextAvailableHour now
  · simp [checkTimestamp, h1]
  · simp [checkTimestamp, h1, h36]

theorem checkTimestampList_misaligned (L now : Int) (ts : List Int)
    (hex : ∃ t ∈ ts, t % 3600 ≠ 0)
    (hrange : ∀ t ∈ ts, nextAvailableHour now ≤ t ∧ t ≤ now + L) :
    checkTimestampList L now ts = .error .notHourAligned := by
  induction ts with
  | nil => simp at hex
  | cons t ts ih =>
    obtain ⟨hlo, hhi⟩ := hrange t (by simp)
    by_cases hal : t % 3600 = 0
    · have hal36 : t % (SEC_IN_MIN * MIN_IN_HOUR) = 0 := by
        rw [hourSeconds]; exact hal
      have hck : checkTimestamp L now t = .ok () := by
        simp [checkTimestamp, not_lt.mpr hlo, not_lt.mpr hhi, hal36]
      rw [checkTimestampList, hck]
      obtain ⟨x, hx, hxm⟩ := hex
      rcases List.mem_cons.mp hx with rfl | hx'
      · exact absurd hal hxm
      · exact ih ⟨x, hx', hxm⟩ fun u hu => hrange u (by simp [hu])
    · have hal36 : t % (SEC_IN_MIN * MIN_IN_HOUR) ≠ 0 := by
        rw [hourSeconds]; exact hal
      rw [checkTimestampList]
      simp [checkTimestamp, not_lt.mpr hlo, hal36]

/-- C3: `sendExtrinsic` tears down its status subscription immediately after
registering it (the `unsub()` call right after the awaited send, with zero
further awaited deliveries), so the handler observes at most the first
status event — a prefix of the delivery stream of length at most one — and
the returned transaction hash is derived from the submitted signed bytes
alone: it is the same for every event stream, hence independent of
finalization status. -/
theorem sendExtrinsic_first_event_only_and_hash (hashOf : String → String)
    (extrinsicHex : String) (events otherEvents : List SubmittableResult) :
    (sendExtrinsic hashOf extrinsicHex events).observed.length ≤ 1 ∧
    (sendExtrinsic hashOf extrinsicHex events).observed <+: events ∧
    (sendExtrinsic hashOf extrinsicHex events).txHash = hashOf extrinsicHex ∧
    (sendExtrinsic hashOf extrinsicHex events).txHash =
      (sendExtrinsic hashOf extrinsicHex otherEvents).txHash := by
  refine ⟨?_, ?_, rfl, rfl⟩
  · simp [sendExtrinsic, sendUnsubDelay]
  · exact List.take_prefix _ _

/-- C4 counterexample: with `LOWEST_TRANSFERRABLE_AMOUNT = 1000000000` and
an amount below it, a transfer whose sender and recipient are the same
address fails with `amountTooLow`, not `selfTransferNotAllowed` — the claim
that equal addresses fail with the self-transfer error independent of the
amount is false (the same holds for every positive lower bound, at
`amount = bound - 1`). -/
theorem validateTransferParams_self_low_counterexample :
    validateTransferParams 1000000000 999999999 "5Gself" "5Gself" =
      .error .amountTooLow ∧
    ValidationError.amountTooLow ≠ ValidationError.selfTransferNotAllowed :=
  ⟨rfl, by decide⟩

/-- C4 amended: `validateTransferParams` checks the amount first: it fails
with `amountTooLow` whenever `amount < lowestTransferrableAmount`; when the
amount is admissible it fails with `selfTransferNotAllowed` exactly when the
sending and receiving addresses are equal (exact value equality), and
succeeds otherwise. -/
theorem validateTransferParams_order (lowest amount : Int)
    (sendingAddress receivingAddress : String) :
    (amount < lowest →
      validateTransferParams lowest amount sendingAddress receivingAddress =
        .error .amountTooLow) ∧
    (lowest ≤ amount →
      (validateTransferParams lowest amount sendingAddress receivingAddress =
          .error .selfTransferNotAllowed ↔ sendingAddress = receivingAddress)) ∧
    (lowest ≤ amount → sendingAddress ≠ receivingAddress →
      validateTransferParams lowest amount sendingAddress receivingAddress =
        .ok ()) := by
  refine ⟨?_, ?_, ?_⟩
  · intro h
    rw [validateTransferParams, if_pos h]
  · intro h
    rw [validateTransferParams, if_neg (not_lt.mpr h)]
    by_cases hs : sendingAddress = receivingAddress
    · simp [hs]
    · simp [hs]
  · intro h hs
    rw [validateTransferParams, if_neg (not_lt.mpr h), if_neg hs]

theorem validateTransferParams_order_witness :
    validateTransferParams 1000000000 5 "5A" "5B" = .error .amountTooLow ∧
    validateTransferParams 1000000000 2000000000 "5A" "5A" =
      .error .selfTransferNotAllowed ∧
    validateTransferParams 1000000000 2000000000 "5A" "5B" = .ok () :=
  ⟨(validateTransferParams_order 1000000000 5 "5A" "5B").1 (by decide),
   ((validateTransferParams_order 1000000000 2000000000 "5A" "5A").2.1
      (by decide)).mpr rfl,
   (validateTransferParams_order 1000000000 2000000000 "5A" "5B").2.2
      (by decide) (by decide)⟩

/-- C7: `defaultErrorHandler` is a total logging function: it returns a log
(never a thrown error and never a dispatch error propagated to the caller of
`sendExtrinsic`), its first log line reports the status of every event, and
on a finalized result carrying a dispatch error it additionally logs either
the decoded module error (docs, name, section, via the metadata registry) or
the stringified opaque error; in every other case the status line is the
whole log. -/
theorem defaultErrorHandler_logs_only (findMetaError : Nat → Nat → MetaError)
    (result : SubmittableResult) :
    (defaultErrorHandler findMetaError result).head? =
      some (.txStatus result.status.type) ∧
    (result.status.isFinalized = true →
      ∀ moduleIndex errorIndex,
        result.dispatchError = some (.moduleErr moduleIndex errorIndex) →
        defaultErrorHandler findMetaError result =
          [.txStatus result.status.type,
           .finalizedModuleError (findMetaError moduleIndex errorIndex)]) ∧
    (result.status.isFinalized = true →
      ∀ raw, result.dispatchError = some (.other raw) →
        defaultErrorHandler findMetaError result =
          [.txStatus result.status.type, .finalizedOtherError raw]) ∧
    (result.status.isFinalized = false ∨ result.dispatchError = none →
      defaultErrorHandler findMetaError result =
        [.txStatus result.status.type]) := by
  refine ⟨?_, ?_, ?_, ?_⟩
  · rw [defaultErrorHandler]
    by_cases hf : result.status.isFinalized
    · cases hde : result.dispatchError with
      | none => simp [hf]
      | some d => cases d <;> simp [hf, hde]
    · simp [hf]
  · intro hf mi ei hde
    simp [defaultErrorHandler, hf, hde]
  · intro hf raw hde
    simp [defaultErrorHandler, hf, hde]
  · intro h
    rcases h with hf | hde
    · simp [defaultErrorHandler, hf]
    · rw [defaultErrorHandler]
      by_cases hf : result.status.isFinalized <;> simp [hf, hde]

theorem defaultErrorHandler_logs_only_witness :
    defaultErrorHandler (fun _ _ => ⟨["d"], "n", "s"⟩)
        ⟨⟨"Finalized", true⟩, some (.moduleErr 1 2)⟩ =
      [.txStatus "Finalized", .finalizedModuleError ⟨["d"], "n", "s"⟩] :=
  (defaultErrorHandler_logs_only (fun _ _ => ⟨["d"], "n", "s"⟩)
    ⟨⟨"Finalized", true⟩, some (.moduleErr 1 2)⟩).2.1 rfl 1 2 rfl

/-- C8: `convertToSeconds` maps each element independently — a value
strictly above the threshold `100000000000` is divided by 1000 and any other
value is returned unchanged — it preserves length and order (an element's
image does not depend on its neighbours), and on the spec's examples
`[1700000000000]` maps to `[1700000000]` while `[1700000000]` is returned
unchanged. -/
theorem convertToSeconds_spec (ts pre post : List Rat) (t : Rat) :
    convertToSeconds [1700000000000] = [1700000000] ∧
    convertToSeconds [1700000000] = [1700000000] ∧
    (convertToSeconds ts).length = ts.length ∧
    (ts = pre ++ t :: post →
      convertToSeconds ts =
        convertToSeconds pre ++
          (if t > 100000000000 then t / 1000 else t) :: convertToSeconds post) := by
  refine ⟨?_, ?_, ?_, ?_⟩
  · norm_num [convertToSeconds, MS_IN_SEC]
  · norm_num [convertToSeconds, MS_IN_SEC]
  · simp [convertToSeconds]
  · intro h
    subst h
    simp only [convertToSeconds, List.map_append, List.map_cons]
    norm_num [MS_IN_SEC]

theorem convertToSeconds_spec_witness :
    convertToSeconds [1, 200000000000, 3] = [1, 200000000, 3] := by
  have h := (convertToSeconds_spec [1, 200000000000, 3] [1] [3]
    200000000000).2.2.2 rfl
  rw [h]
  norm_num [convertToSeconds]

/-- C1: unit mismatch in the horizon ceiling.  At `Date.now() =
1699999200000` ms with a one-week scheduling horizon of `604800000` ms, the
hour-aligned seconds timestamp `1800000000` exceeds the normalized-seconds
ceiling `now / 1000 + horizon / 1000` (and the seconds-consistent contract
of the spec rejects it with `tooFarInFuture`), yet the code accepts it,
because line 126 compares the seconds timestamp against the millisecond
`currentTime + schedulingTimeLimit`. -/
theorem validateTimestamps_horizon_unit_mismatch :
    validateTimestamps 604800000 1699999200000 [1800000000] = .ok () ∧
    (1800000000 : Int) > 1699999200000 / MS_IN_SEC + 604800000 / MS_IN_SEC ∧
    validateTimestampsSpec 604800000 1699999200000 [1800000000] =
      .error .tooFarInFuture :=
  ⟨rfl, by decide, rfl⟩

/-- C2 counterexample: at the exactly hour-aligned current time
`1700002800000` ms, the timestamp `1700002800` s — equal to that current
time expressed in seconds — is rejected with `timestampInPast`, because the
code's `nextAvailableHour` is the hour strictly after now, not the smallest
hour-aligned instant greater than or equal to now. -/
theorem validateTimestamps_aligned_now_counterexample :
    (1700002800000 : Int) % (SEC_IN_MIN * MIN_IN_HOUR * MS_IN_SEC) = 0 ∧
    (1700002800 : Int) * 1000 = 1700002800000 ∧
    validateTimestamps 604800000 1700002800000 [1700002800] =
      .error .timestampInPast :=
  ⟨by decide, by decide, rfl⟩

/-- C2 amended: `validateTimestamps` computes `nextAvailableHour` as the
smallest hour-aligned instant strictly greater than the current time (so
when the current time is itself hour-aligned, a timestamp equal to it is
already in the past and fails), and a single-timestamp schedule fails with
`timestampInPast` exactly when the timestamp is below `nextAvailableHour`. -/
theorem validateTimestamps_nextHour_strict (schedulingTimeLimit currentTime : Int) :
    3600 ∣ nextAvailableHour currentTime ∧
    currentTime < 1000 * nextAvailableHour currentTime ∧
    (∀ s : Int, 3600 ∣ s → currentTime < 1000 * s →
      nextAvailableHour currentTime ≤ s) ∧
    (∀ t : Int,
      validateTimestamps schedulingTimeLimit currentTime [t] =
          .error .timestampInPast ↔
        t < nextAvailableHour currentTime) := by
  refine ⟨?_, lt_mul_nextAvailableHour currentTime, ?_, ?_⟩
  · rw [nextAvailableHour_eq]
    exact dvd_mul_right 3600 _
  · exact fun s => nextAvailableHour_least currentTime s
  · intro t
    have hlen : ¬ ([t].length > RECURRING_TASK_LIMIT) := by
      simp [RECURRING_TASK_LIMIT]
    rw [validateTimestamps, if_neg hlen]
    by_cases h1 : t < nextAvailableHour currentTime
    · simp [checkTimestampList, checkTimestamp, h1]
    · by_cases h2 : t % (SEC_IN_MIN * MIN_IN_HOUR) ≠ 0
      · simp [checkTimestampList, checkTimestamp, h1, h2]
      · by_cases h3 : t > currentTime + schedulingTimeLimit
        · simp [checkTimestampList, checkTimestamp, h1, h2, h3]
        · simp [checkTimestampList, checkTimestamp, h1, h2, h3]

theorem validateTimestamps_nextHour_strict_witness :
    nextAvailableHour 1700002800000 ≤ 1700006400 ∧
    validateTimestamps 604800000 1700002800000 [1700002800] =
      .error .timestampInPast :=
  ⟨(validateTimestamps_nextHour_strict 604800000 1700002800000).2.2.1
      1700006400 (by decide) (by decide),
   ((validateTimestamps_nextHour_strict 604800000 1700002800000).2.2.2
      1700002800).mpr (by decide)⟩

/-- C5: `validateTimestamps` enforces the cardinality rule first — more than
24 entries fail with `tooManyTasks` regardless of the timestamps' values —
and otherwise scans the timestamps in input order, reporting exactly the
error of the first timestamp whose per-timestamp check fails (later entries
are irrelevant; no aggregation), and succeeding when every per-timestamp
check passes. -/
theorem validateTimestamps_first_violation (schedulingTimeLimit currentTime : Int)
    (timestamps : List Int) :
    (timestamps.length > RECURRING_TASK_LIMIT →
      validateTimestamps schedulingTimeLimit currentTime timestamps =
        .error .tooManyTasks) ∧
    (timestamps.length ≤ RECURRING_TASK_LIMIT →
      ∀ pre t post e, timestamps = pre ++ t :: post →
        (∀ u ∈ pre, checkTimestamp schedulingTimeLimit currentTime u = .ok ()) →
        checkTimestamp schedulingTimeLimit currentTime t = .error e →
        validateTimestamps schedulingTimeLimit currentTime timestamps =
          .error e) ∧
    (timestamps.length ≤ RECURRING_TASK_LIMIT →
      (∀ u ∈ timestamps,
        checkTimestamp schedulingTimeLimit currentTime u = .ok ()) →
      validateTimestamps schedulingTimeLimit currentTime timestamps = .ok ()) := by
  refine ⟨?_, ?_, ?_⟩
  · intro h
    rw [validateTimestamps, if_pos h]
  · intro hle pre t post e heq hpre ht
    rw [validateTimestamps, if_neg (not_lt.mpr hle), heq]
    exact checkTimestampList_first_error _ _ pre t post e hpre ht
  · intro hle hall
    rw [validateTimestamps, if_neg (not_lt.mpr hle)]
    exact (checkTimestampList_ok_iff _ _ _).mpr hall

theorem validateTimestamps_first_violation_witness :
    validateTimestamps 604800000 1700002800000 (List.replicate 25 0) =
      .error .tooManyTasks ∧
    validateTimestamps 604800000 1700002800000 [1700006400, 1700010001, 999] =
      .error .notHourAligned ∧
    validateTimestamps 604800000 1700002800000 [1700006400] = .ok () :=
  ⟨(validateTimestamps_first_violation 604800000 1700002800000
      (List.replicate 25 0)).1 (by decide),
   (validateTimestamps_first_violation 604800000 1700002800000
      [1700006400, 1700010001, 999]).2.1 (by decide) [1700006400] 1700010001
      [999] .notHourAligned rfl
      (by intro u hu; rw [List.mem_singleton] at hu; subst hu; rfl) rfl,
   (validateTimestamps_first_violation 604800000 1700002800000
      [1700006400]).2.2 (by decide)
      (by intro u hu; rw [List.mem_singleton] at hu; subst hu; rfl)⟩

/-- C6: both build operations raise the validation error before any
external interaction: whenever `validateTimestamps` fails (or, for the
transfer build, `validateTransferParams` fails after the timestamps pass),
the build throws that error with an empty effect trace — no chain
connection, no extrinsic assembly, no signing. -/
theorem build_validation_before_network
    (schedulingTimeLimit currentTime lowest amount : Int) (providedID : Int)
    (providedIDText address receivingAddress message : String)
    (timestamps : List Int) :
    (∀ e, validateTimestamps schedulingTimeLimit currentTime timestamps =
        .error e →
      buildScheduleNotifyExtrinsic schedulingTimeLimit currentTime providedID
        timestamps message = ([], .error e)) ∧
    (∀ e, validateTimestamps schedulingTimeLimit currentTime timestamps =
        .error e →
      buildScheduleNativeTransferExtrinsic schedulingTimeLimit currentTime
        lowest address providedIDText timestamps receivingAddress amount =
          ([], .error e)) ∧
    (∀ e, validateTimestamps schedulingTimeLimit currentTime timestamps =
        .ok () →
      validateTransferParams lowest amount address receivingAddress =
        .error e →
      buildScheduleNativeTransferExtrinsic schedulingTimeLimit currentTime
        lowest address providedIDText timestamps receivingAddress amount =
          ([], .error e)) := by
  refine ⟨?_, ?_, ?_⟩
  · intro e he
    simp [buildScheduleNotifyExtrinsic, he]
  · intro e he
    simp [buildScheduleNativeTransferExtrinsic, he]
  · intro e hok he
    simp [buildScheduleNativeTransferExtrinsic, hok, he]

theorem build_validation_before_network_witness :
    buildScheduleNotifyExtrinsic 604800000 1700002800000 7 [5] "ping" =
      ([], .error .timestampInPast) ∧
    buildScheduleNativeTransferExtrinsic 604800000 1700002800000 1000000000
      "5A" "pid" [5] "5B" 2000000000 = ([], .error .timestampInPast) ∧
    buildScheduleNativeTransferExtrinsic 604800000 1700002800000 1000000000
      "5A" "pid" [1700006400] "5A" 2000000000 =
        ([], .error .selfTransferNotAllowed) :=
  ⟨(build_validation_before_network 604800000 1700002800000 1000000000
      2000000000 7 "pid" "5A" "5B" "ping" [5]).1 .timestampInPast rfl,
   (build_validation_before_network 604800000 1700002800000 1000000000
      2000000000 7 "pid" "5A" "5B" "ping" [5]).2.1 .timestampInPast rfl,
   (build_validation_before_network 604800000 1700002800000 1000000000
      2000000000 7 "pid" "5A" "5A" "ping" [1700006400]).2.2
      .selfTransferNotAllowed rfl rfl⟩

/-- C9 counterexample: the sequence `[5]` has admissible length and contains
a value not divisible by 3600, yet — at the hour-aligned current time
`1700002800000` ms — `validateTimestamps` fails with `timestampInPast`, not
`notHourAligned`: the in-past check precedes the alignment check. -/
theorem validateTimestamps_misaligned_counterexample :
    ¬ (3600 : Int) ∣ 5 ∧
    validateTimestamps 604800000 1700002800000 [5] = .error .timestampInPast ∧
    (Except.error ValidationError.timestampInPast :
        Except ValidationError Unit) ≠
      Except.error ValidationError.notHourAligned :=
  ⟨by decide, rfl, by simp⟩

/-- C9 amended: a sequence of admissible length containing a value not
divisible by 3600 always fails validation (with some error, not necessarily
`notHourAligned`); it fails with `notHourAligned` precisely in the runs
where the alignment violation is the first violation encountered — in
particular whenever every timestamp also lies in the code's accepted range
(at or after `nextAvailableHour` and at most `currentTime +
schedulingTimeLimit`). -/
theorem validateTimestamps_misaligned_amended
    (schedulingTimeLimit currentTime : Int) (timestamps : List Int) :
    (timestamps.length ≤ RECURRING_TASK_LIMIT →
      (∃ t ∈ timestamps, t % 3600 ≠ 0) →
      ∃ e, validateTimestamps schedulingTimeLimit currentTime timestamps =
        .error e) ∧
    (timestamps.length ≤ RECURRING_TASK_LIMIT →
      (∃ t ∈ timestamps, t % 3600 ≠ 0) →
      (∀ t ∈ timestamps, nextAvailableHour currentTime ≤ t ∧
        t ≤ currentTime + schedulingTimeLimit) →
      validateTimestamps schedulingTimeLimit currentTime timestamps =
        .error .notHourAligned) := by
  refine ⟨?_, ?_⟩
  · intro hle hex
    rw [validateTimestamps, if_neg (not_lt.mpr hle)]
    refine checkTimestampList_error_of_not_all_ok _ _ _ ?_
    intro hall
    obtain ⟨x, hx, hxm⟩ := hex
    exact checkTimestamp_misaligned_ne_ok schedulingTimeLimit currentTime x hxm
      (hall x hx)
  · intro hle hex hrange
    rw [validateTimestamps, if_neg (not_lt.mpr hle)]
    exact checkTimestampList_misaligned _ _ _ hex hrange

theorem validateTimestamps_misaligned_amended_witness :
    (∃ e, validateTimestamps 604800000 1700002800000 [5] = .error e) ∧
    validateTimestamps 604800000 1700002800000 [1700006400, 1700010001] =
      .error .notHourAligned :=
  ⟨(validateTimestamps_misaligned_amended 604800000 1700002800000 [5]).1
      (by decide) ⟨5, by simp, by decide⟩,
   (validateTimestamps_misaligned_amended 604800000 1700002800000
      [1700006400, 1700010001]).2 (by decide)
      ⟨1700010001, by simp, by decide⟩
      (by
        intro t ht
        rw [List.mem_cons, List.mem_singleton] at ht
        rcases ht with rfl | rfl
        · exact ⟨by decide, by decide⟩
        · exact ⟨by decide, by decide⟩)⟩

/-- C10: the empty timestamp sequence passes `validateTimestamps` (the
cardinality bound holds and the per-timestamp rules hold vacuously), so
`buildScheduleNotifyExtrinsic` proceeds through connection, assembly and
signing with an empty execution-times list, and so does
`buildScheduleNativeTransferExtrinsic` whenever its transfer parameters are
valid. -/
theorem empty_schedule_accepted
    (schedulingTimeLimit currentTime lowest amount : Int) (providedID : Int)
    (providedIDText address receivingAddress message : String) :
    validateTimestamps schedulingTimeLimit currentTime [] = .ok () ∧
    buildScheduleNotifyExtrinsic schedulingTimeLimit currentTime providedID []
        message =
      ([.connectChain, .assembleExtrinsic, .signExtrinsic],
        .ok { providedID := providedID, executionTimes := [],
              message := message }) ∧
    (validateTransferParams lowest amount address receivingAddress = .ok () →
      buildScheduleNativeTransferExtrinsic schedulingTimeLimit currentTime
          lowest address providedIDText [] receivingAddress amount =
        ([.connectChain, .assembleExtrinsic, .signExtrinsic],
          .ok { providedID := providedIDText, executionTimes := [],
                receivingAddress := receivingAddress, amount := amount })) := by
  refine ⟨rfl, rfl, ?_⟩
  intro h
  have h0 : validateTimestamps schedulingTimeLimit currentTime [] = .ok () := rfl
  simp [buildScheduleNativeTransferExtrinsic, h0, h, convertToSeconds]

theorem empty_schedule_accepted_witness :
    buildScheduleNativeTransferExtrinsic 604800000 1700002800000 1000000000
        "5A" "pid" [] "5B" 2000000000 =
      ([.connectChain, .assembleExtrinsic, .signExtrinsic],
        .ok ⟨"pid", [], "5B", 2000000000⟩) :=
  (empty_schedule_accepted 604800000 1700002800000 1000000000 2000000000 7
    "pid" "5A" "5B" "m").2.2 rfl
